import Mathlib

/-!
Shallow embedding of the unified AI client of `demo/ai_client.py` (class
`AIClient`), the provider-abstraction core of the repository.  Python dicts
parsed from JSON are modelled by the `Json` inductive below; Python exceptions
by `PyExc` together with `Except`; the HTTP transport (`requests.post` /
`requests.get` followed by `raise_for_status()` and `.json()`), the OpenAI
library client and the `random` module's generator are external collaborators
and are modelled by an oracle record `World`.  Methods of `AIClient` become
functions of the client state; since no method assigns an attribute, each
operation returns its result paired with the (unchanged) client state, making
the frame property statable.
-/

/-- Python exception classes that the client's code paths can raise or catch:
the three classes named in the extraction helpers' `except` clauses, `TypeError`
(raised by subscripting a wrong-typed value, and caught by no extraction
handler), `ValueError` (raised by `__init__`), and the `requests` failures
(connection error or non-2xx status after `raise_for_status()`). -/
inductive PyExc where
  | keyError
  | indexError
  | attributeError
  | typeError
  | valueError
  | transportError (status : Nat)
deriving DecidableEq

/-- Exception classes converted to an empty string by the extraction helpers'
`except (KeyError, IndexError, AttributeError)` clauses. -/
def caughtByExtraction : PyExc → Bool
  | .keyError => true
  | .indexError => true
  | .attributeError => true
  | _ => false

/-- JSON-like Python values: what `response.json()` produces and what payload
dicts hold. -/
inductive Json where
  | null
  | bool (b : Bool)
  | num (q : ℚ)
  | str (s : String)
  | arr (elems : List Json)
  | obj (fields : List (String × Json))

/-- First value bound to a key in a dict's field list (Python dict keys are
unique, so first is the value). -/
def lookupKey : List (String × Json) → String → Option Json
  | [], _ => none
  | (k, v) :: rest, key => if key = k then some v else lookupKey rest key

/-- Python subscript `v[k]` with a string key: dict lookup raises `KeyError` on
a missing key; subscripting a string, list, number, bool or None with a string
key raises `TypeError`. -/
def pySubscriptStr : Json → String → Except PyExc Json
  | .obj fs, k =>
      match lookupKey fs k with
      | some v => .ok v
      | none => .error .keyError
  | _, _ => .error .typeError

/-- Python subscript `v[i]` with an int index: list indexing raises `IndexError`
out of range; a string yields its one-character slice or `IndexError`; a dict
raises `KeyError` (its keys are strings, so an int key is absent); other values
raise `TypeError`. -/
def pySubscriptNat : Json → Nat → Except PyExc Json
  | .arr xs, i =>
      match xs.get? i with
      | some v => .ok v
      | none => .error .indexError
  | .str s, i =>
      match s.toList.get? i with
      | some ch => .ok (.str (String.mk [ch]))
      | none => .error .indexError
  | .obj _, _ => .error .keyError
  | _, _ => .error .typeError

/-- Python `d.get(key, default)`: only dicts have a `.get` method, so any other
JSON value raises `AttributeError`. -/
def pyDictGet (j : Json) (k : String) (dflt : Json) : Except PyExc Json :=
  match j with
  | .obj fs => .ok ((lookupKey fs k).getD dflt)
  | _ => .error .attributeError

/-- Python dict assignment `d[k] = v`: replaces the value in place when the key
is present (keeping its position), otherwise appends the pair. -/
def setKey (fs : List (String × Json)) (k : String) (v : Json) : List (String × Json) :=
  if fs.any (fun p => p.1 = k) then
    fs.map (fun p => if p.1 = k then (k, v) else p)
  else fs ++ [(k, v)]

/-- Python dict-literal splice `{base..., **kvs}`: each pair of `kvs` is
assigned in order into the dict built so far. -/
def setKeys (fs : List (String × Json)) (kvs : List (String × Json)) : List (String × Json) :=
  kvs.foldl (fun acc p => setKey acc p.1 p.2) fs

/-- The provider enumeration of `ai_client.py` (`class AIProvider(Enum)`). -/
inductive AIProvider where
  | OPENAI
  | DEEPSEEK
  | OLLAMA
  | LOCAL
deriving DecidableEq

/-- The attributes `AIClient.__init__` stores on `self`.  `client` records
whether the OpenAI library's client object was constructed (`self.client` is
only ever truthy for the OPENAI provider with a credential and the library
installed); the library object itself lives behind the `World` oracle. -/
structure Client where
  provider : AIProvider
  api_key : Option String
  base_url : Option String
  use_local_fallback : Bool
  client : Bool
  headers : List (String × String)
deriving DecidableEq

/-- The environment `__init__` consults: the two credential variables and
whether `from openai import OpenAI` succeeds. -/
structure Env where
  openai_key : Option String
  deepseek_key : Option String
  openai_lib_available : Bool

/-- Python truthiness of an optional string: `None` and the empty string are
falsy. -/
def truthy : Option String → Bool
  | some s => !(s == "")
  | none => false

/-- Python `a or b` on optional strings: `a` when truthy, otherwise `b`. -/
def pyOr (a b : Option String) : Option String := if truthy a then a else b

/-- Python `a or d` with a (non-empty) string default `d`. -/
def pyOrDefault (a : Option String) (d : String) : String :=
  if truthy a then a.getD d else d

/-- The effect oracle standing for the external collaborators: HTTP transport
(POST and GET with `raise_for_status()` and `.json()` folded in — an error value
is a connection failure or a non-2xx status), the three OpenAI-library entry
points used by the client (each returning the value the source reads off the
library response), and the 32-bit word stream of the `random` module's
Mersenne Twister. -/
structure World where
  post : String → List (String × String) → Json → Except PyExc Json
  get : String → Except PyExc Json
  libChat : String → List Json → Option ℚ → Option Int → List (String × Json) → Except PyExc Json
  libText : String → String → Option ℚ → Option Int → List (String × Json) → Except PyExc Json
  libEmbed : String → String → Except PyExc Json
  randWord : Nat → Nat

/-- `AIClient.__init__` (lines 21–79): resolve the credential (explicit
argument first, then the environment, Python `or` truthiness), raise
`ValueError` when a hosted provider ends with no credential while fallback is
disabled, resolve the base URL, record whether the OpenAI library client was
constructed, and build the headers.  The `openai` import and the library's
constructor are modelled as non-failing. -/
def AIClient_init (env : Env) (provider : AIProvider) (api_key : Option String)
    (base_url : Option String) (use_local_fallback : Bool) : Except PyExc Client :=
  let core : Except PyExc (Option String × Option String × Bool) :=
    match provider with
    | .OPENAI =>
        let key := pyOr api_key env.openai_key
        if !truthy key && !use_local_fallback then .error .valueError
        else
          .ok (key, some (pyOrDefault base_url "https://api.openai.com/v1"),
               truthy key && env.openai_lib_available)
    | .DEEPSEEK =>
        let key := pyOr api_key env.deepseek_key
        if !truthy key && !use_local_fallback then .error .valueError
        else .ok (key, some (pyOrDefault base_url "https://api.deepseek.com/v1"), false)
    | .OLLAMA =>
        .ok (api_key, some (pyOrDefault base_url "http://localhost:11434"), false)
    | .LOCAL => .ok (none, none, false)
  match core with
  | .error e => .error e
  | .ok (key, base, lib) =>
      .ok { provider := provider
            api_key := key
            base_url := base
            use_local_fallback := use_local_fallback
            client := lib
            headers :=
              if truthy key then
                [("Authorization", "Bearer " ++ key.getD ""),
                 ("Content-Type", "application/json")]
              else [("Content-Type", "application/json")] }

/-- Default chat model per provider (`chat_completion`, lines 102–111). -/
def chat_default : AIProvider → String
  | .OPENAI => "gpt-3.5-turbo"
  | .DEEPSEEK => "deepseek-chat"
  | .OLLAMA => "llama2"
  | .LOCAL => "local-model"

/-- Default text-completion model per provider (`text_completion`,
lines 278–287). -/
def text_default : AIProvider → String
  | .OPENAI => "gpt-3.5-turbo-instruct"
  | .DEEPSEEK => "deepseek-coder"
  | .OLLAMA => "llama2"
  | .LOCAL => "local-model"

/-- Default embedding model per provider (`create_embedding`, lines 440–449). -/
def embedding_default : AIProvider → String
  | .OPENAI => "text-embedding-ada-002"
  | .DEEPSEEK => "deepseek-embedding"
  | .OLLAMA => "llama2"
  | .LOCAL => "local-embedding"

/-- A possibly-absent float argument placed in a payload: Python serializes
`None` as JSON null. -/
def jsonOfOptQ : Option ℚ → Json
  | some q => .num q
  | none => .null

/-- Chat payload of the OPENAI and DEEPSEEK request branches (lines 128–135 and
144–151, which are textually identical): `model`, `messages` and `temperature`
top-level, then the keyword-argument splice, then `max_tokens` assigned
top-level only when supplied. -/
def hosted_chat_payload (model : String) (messages : List Json) (temperature : Option ℚ)
    (max_tokens : Option Int) (kwargs : List (String × Json)) : Json :=
  let p := setKeys
    [("model", .str model), ("messages", .arr messages), ("temperature", jsonOfOptQ temperature)]
    kwargs
  .obj (match max_tokens with
        | some n => setKey p "max_tokens" (.num n)
        | none => p)

/-- Text payload of the OPENAI and DEEPSEEK request branches (lines 304–311 and
320–327). -/
def hosted_text_payload (model : String) (prompt : String) (temperature : Option ℚ)
    (max_tokens : Option Int) (kwargs : List (String × Json)) : Json :=
  let p := setKeys
    [("model", .str model), ("prompt", .str prompt), ("temperature", jsonOfOptQ temperature)]
    kwargs
  .obj (match max_tokens with
        | some n => setKey p "max_tokens" (.num n)
        | none => p)

/-- Ollama chat payload (lines 162–175): `stream` is always `False`,
`temperature` and `num_predict` go under the `options` sub-dict when supplied,
and the keyword arguments are not used by this branch. -/
def ollama_chat_payload (model : String) (messages : List Json) (temperature : Option ℚ)
    (max_tokens : Option Int) : Json :=
  let base : List (String × Json) :=
    [("model", .str model), ("messages", .arr messages), ("stream", .bool false)]
  let options : List (String × Json) :=
    (match temperature with
     | some t => [("temperature", Json.num t)]
     | none => []) ++
    (match max_tokens with
     | some n => [("num_predict", Json.num n)]
     | none => [])
  .obj (if options.isEmpty then base else setKey base "options" (.obj options))

/-- Ollama text-generation payload (lines 338–351). -/
def ollama_text_payload (model : String) (prompt : String) (temperature : Option ℚ)
    (max_tokens : Option Int) : Json :=
  let base : List (String × Json) :=
    [("model", .str model), ("prompt", .str prompt), ("stream", .bool false)]
  let options : List (String × Json) :=
    (match temperature with
     | some t => [("temperature", Json.num t)]
     | none => []) ++
    (match max_tokens with
     | some n => [("num_predict", Json.num n)]
     | none => [])
  .obj (if options.isEmpty then base else setKey base "options" (.obj options))

/-- Hosted embedding payload (lines 463–466 and 475–478). -/
def hosted_embedding_payload (model : String) (input : String) : Json :=
  .obj [("model", .str model), ("input", .str input)]

/-- Ollama embedding payload (lines 488–491). -/
def ollama_embedding_payload (model : String) (text : String) : Json :=
  .obj [("model", .str model), ("prompt", .str text)]

/-- `AIClient._local_chat_completion` (lines 192–228): the offline stub's fixed
chat response, echoing the model name. -/
def local_chat_completion (_messages : List Json) (model : String) : Json :=
  .obj
    [("choices", .arr
        [.obj
           [("message", .obj
               [("content", .str "这是一个本地模型生成的回复。在实际应用中，您可以集成真正的本地模型。"),
                ("role", .str "assistant")]),
            ("finish_reason", .str "stop"),
            ("index", .num 0)]]),
     ("model", .str model),
     ("usage", .obj
        [("completion_tokens", .num 20), ("prompt_tokens", .num 10),
         ("total_tokens", .num 30)])]

/-- `AIClient._local_text_completion` (lines 368–396): the offline stub's fixed
text-completion response. -/
def local_text_completion (_prompt : String) (model : String) : Json :=
  .obj
    [("choices", .arr
        [.obj
           [("text", .str "这是一个本地模型生成的文本完成。在实际应用中，您可以集成真正的本地模型。"),
            ("finish_reason", .str "stop"),
            ("index", .num 0)]]),
     ("model", .str model),
     ("usage", .obj
        [("completion_tokens", .num 20), ("prompt_tokens", .num 10),
         ("total_tokens", .num 30)])]

/-- CPython's `random.random()`: two 32-bit generator words combine into a
53-bit numerator over 2^53 (`genrand_res53`: `a = word >> 5`, `b = word >> 6`,
`(a * 2^26 + b) / 2^53`).  Call `i` consumes words `2*i` and `2*i+1` of the
stream; every produced value is exactly representable as a double, so ℚ models
the float result without error. -/
def random_res53 (w : Nat → Nat) (i : Nat) : ℚ :=
  (((w (2 * i) % 2 ^ 32) / 2 ^ 5 * 2 ^ 26 + (w (2 * i + 1) % 2 ^ 32) / 2 ^ 6 : ℕ) : ℚ) / 2 ^ 53

/-- `AIClient._local_embedding` (lines 508–520): 1536 draws of
`random.random()`; the text and model arguments are ignored by the source. -/
def local_embedding (w : Nat → Nat) (_text : String) (_model : String) : List ℚ :=
  (List.range 1536).map (fun i => random_res53 w i)

/-- `AIClient.chat_completion` (lines 81–190): resolve the default model, issue
the provider-specific request (or the library call, or the local stub), and on
any exception fall back to the local stub when `use_local_fallback` holds and
the provider is not LOCAL, otherwise re-raise. -/
def chat_completion (c : Client) (w : World) (messages : List Json)
    (model? : Option String) (temperature : Option ℚ) (max_tokens : Option Int)
    (kwargs : List (String × Json)) : Except PyExc Json × Client :=
  let model := model?.getD (chat_default c.provider)
  let attempt : Except PyExc Json :=
    match c.provider with
    | .OPENAI =>
        if c.client then w.libChat model messages temperature max_tokens kwargs
        else
          w.post (c.base_url.getD "" ++ "/chat/completions") c.headers
            (hosted_chat_payload model messages temperature max_tokens kwargs)
    | .DEEPSEEK =>
        w.post (c.base_url.getD "" ++ "/chat/completions") c.headers
          (hosted_chat_payload model messages temperature max_tokens kwargs)
    | .OLLAMA =>
        w.post (c.base_url.getD "" ++ "/api/chat") c.headers
          (ollama_chat_payload model messages temperature max_tokens)
    | .LOCAL => .ok (local_chat_completion messages model)
  (match attempt with
   | .ok v => .ok v
   | .error e =>
       if c.use_local_fallback ∧ c.provider ≠ .LOCAL then
         .ok (local_chat_completion messages model)
       else .error e, c)

/-- `AIClient.text_completion` (lines 257–366). -/
def text_completion (c : Client) (w : World) (prompt : String)
    (model? : Option String) (temperature : Option ℚ) (max_tokens : Option Int)
    (kwargs : List (String × Json)) : Except PyExc Json × Client :=
  let model := model?.getD (text_default c.provider)
  let attempt : Except PyExc Json :=
    match c.provider with
    | .OPENAI =>
        if c.client then w.libText model prompt temperature max_tokens kwargs
        else
          w.post (c.base_url.getD "" ++ "/completions") c.headers
            (hosted_text_payload model prompt temperature max_tokens kwargs)
    | .DEEPSEEK =>
        w.post (c.base_url.getD "" ++ "/completions") c.headers
          (hosted_text_payload model prompt temperature max_tokens kwargs)
    | .OLLAMA =>
        w.post (c.base_url.getD "" ++ "/api/generate") c.headers
          (ollama_text_payload model prompt temperature max_tokens)
    | .LOCAL => .ok (local_text_completion prompt model)
  (match attempt with
   | .ok v => .ok v
   | .error e =>
       if c.use_local_fallback ∧ c.provider ≠ .LOCAL then
         .ok (local_text_completion prompt model)
       else .error e, c)

/-- Extraction `response.json()["data"][0]["embedding"]` of the hosted embedding
branches (lines 470 and 482); performed inside the operation's `try`. -/
def hosted_embed_extract (j : Json) : Except PyExc Json :=
  match pySubscriptStr j "data" with
  | .error e => .error e
  | .ok d =>
      match pySubscriptNat d 0 with
      | .error e => .error e
      | .ok d0 => pySubscriptStr d0 "embedding"

/-- The embedding extraction a provider's request branch performs on the parsed
response (`["data"][0]["embedding"]` for the hosted providers, `["embedding"]`
for Ollama). -/
def embed_extract_of (p : AIProvider) (j : Json) : Except PyExc Json :=
  match p with
  | .OLLAMA => pySubscriptStr j "embedding"
  | _ => hosted_embed_extract j

/-- `AIClient.create_embedding` (lines 425–506): the response-shape extraction
happens inside the `try`, so an extraction failure reaches the same
`except Exception` handler as a transport failure. -/
def create_embedding (c : Client) (w : World) (text : String) (model? : Option String) :
    Except PyExc Json × Client :=
  let model := model?.getD (embedding_default c.provider)
  let attempt : Except PyExc Json :=
    match c.provider with
    | .OPENAI =>
        if c.client then w.libEmbed model text
        else
          match w.post (c.base_url.getD "" ++ "/embeddings") c.headers
              (hosted_embedding_payload model text) with
          | .error e => .error e
          | .ok j => hosted_embed_extract j
    | .DEEPSEEK =>
        match w.post (c.base_url.getD "" ++ "/embeddings") c.headers
            (hosted_embedding_payload model text) with
        | .error e => .error e
        | .ok j => hosted_embed_extract j
    | .OLLAMA =>
        match w.post (c.base_url.getD "" ++ "/api/embeddings") c.headers
            (ollama_embedding_payload model text) with
        | .error e => .error e
        | .ok j => pySubscriptStr j "embedding"
    | .LOCAL => .ok (.arr ((local_embedding w.randWord text model).map Json.num))
  (match attempt with
   | .ok v => .ok v
   | .error e =>
       if c.use_local_fallback ∧ c.provider ≠ .LOCAL then
         .ok (.arr ((local_embedding w.randWord text model).map Json.num))
       else .error e, c)

/-- `AIClient.get_completion_text` (lines 230–255) on a dict-shaped response
(the declared parameter type, `Dict[str, Any]`).  The source's first branch,
`provider == OPENAI and hasattr(response, 'choices')`, is never taken for a
dict, which has no `choices` attribute.  The `except` clause converts
`KeyError`/`IndexError`/`AttributeError` to the empty string; any other
exception — notably `TypeError` from subscripting a wrong-typed value —
propagates. -/
def get_completion_text (provider : AIProvider) (response : List (String × Json)) :
    Except PyExc Json :=
  let body : Except PyExc Json :=
    if provider = .OLLAMA ∧ (lookupKey response "message").isSome then
      pySubscriptStr ((lookupKey response "message").getD .null) "content"
    else if (lookupKey response "choices").isSome then
      match pySubscriptNat ((lookupKey response "choices").getD .null) 0 with
      | .error e => .error e
      | .ok c0 =>
          match pySubscriptStr c0 "message" with
          | .error e => .error e
          | .ok m => pySubscriptStr m "content"
    else .ok (.str "")
  match body with
  | .ok v => .ok v
  | .error e => if caughtByExtraction e then .ok (.str "") else .error e

/-- `AIClient.get_text_completion` (lines 398–423) on a dict-shaped response;
same branch and exception structure as `get_completion_text`, with the Ollama
branch returning `response["response"]` directly and the generic branch reading
`response["choices"][0]["text"]`. -/
def get_text_completion (provider : AIProvider) (response : List (String × Json)) :
    Except PyExc Json :=
  let body : Except PyExc Json :=
    if provider = .OLLAMA ∧ (lookupKey response "response").isSome then
      .ok ((lookupKey response "response").getD .null)
    else if (lookupKey response "choices").isSome then
      match pySubscriptNat ((lookupKey response "choices").getD .null) 0 with
      | .error e => .error e
      | .ok c0 => pySubscriptStr c0 "text"
    else .ok (.str "")
  match body with
  | .ok v => .ok v
  | .error e => if caughtByExtraction e then .ok (.str "") else .error e

/-- The body of `list_ollama_models`'s `try` block (lines 533–538):
`GET {base}/api/tags`, `.json().get("models", [])`, then `model["name"]` for
each entry.  Iterating a non-list raises (`TypeError`) or, for an empty
string/dict, yields no entries; both end in the same `[]` result once the
operation's catch-all handler runs, so the non-list case is modelled as the
raising one. -/
def listModelsBody (w : World) (base : String) : Except PyExc (List Json) :=
  match w.get (base ++ "/api/tags") with
  | .error e => .error e
  | .ok j =>
      match pyDictGet j "models" (Json.arr []) with
      | .error e => .error e
      | .ok models =>
          match models with
          | .arr xs => xs.mapM (fun m => pySubscriptStr m "name")
          | _ => .error .typeError

/-- `AIClient.list_ollama_models` (lines 522–541): an early `[]` return for any
non-Ollama provider, and `except Exception` turning every failure of the body
into `[]`. -/
def list_ollama_models (c : Client) (w : World) : List Json × Client :=
  (if c.provider ≠ .OLLAMA then []
   else
     match listModelsBody w (c.base_url.getD "") with
     | .ok ms => ms
     | .error _ => [], c)

/-! Concrete fixtures used by witness and counterexample theorems. -/

/-- Headers a client without a credential carries. -/
def plainHeaders : List (String × String) := [("Content-Type", "application/json")]

/-- Headers a client with credential `k` carries. -/
def bearerHeaders (k : String) : List (String × String) :=
  [("Authorization", "Bearer " ++ k), ("Content-Type", "application/json")]

/-- An oracle on which every transport and library call fails with status 500. -/
def wFail : World where
  post := fun _ _ _ => .error (.transportError 500)
  get := fun _ => .error (.transportError 500)
  libChat := fun _ _ _ _ _ => .error (.transportError 500)
  libText := fun _ _ _ _ _ => .error (.transportError 500)
  libEmbed := fun _ _ => .error (.transportError 500)
  randWord := fun _ => 0

/-- OPENAI client, fallback enabled, library client absent. -/
def cOpenaiFb : Client :=
  ⟨.OPENAI, some "sk-test", some "https://api.openai.com/v1", true, false,
    bearerHeaders "sk-test"⟩

/-- OPENAI client, fallback disabled. -/
def cOpenaiNoFb : Client :=
  ⟨.OPENAI, some "sk-test", some "https://api.openai.com/v1", false, false,
    bearerHeaders "sk-test"⟩

/-- DEEPSEEK client, fallback enabled. -/
def cDeepseekFb : Client :=
  ⟨.DEEPSEEK, some "sk-test", some "https://api.deepseek.com/v1", true, false,
    bearerHeaders "sk-test"⟩

/-- DEEPSEEK client, fallback disabled. -/
def cDeepseekNoFb : Client :=
  ⟨.DEEPSEEK, some "sk-test", some "https://api.deepseek.com/v1", false, false,
    bearerHeaders "sk-test"⟩

/-- OLLAMA client, fallback enabled. -/
def cOllamaFb : Client :=
  ⟨.OLLAMA, none, some "http://localhost:11434", true, false, plainHeaders⟩

/-- C1.  For every logical operation, when the provider call raises while
`use_local_fallback` holds and the provider is not LOCAL, the operation returns
the offline stub's result for the operation's (resolved) arguments, and no
exception reaches the caller. -/
theorem fallback_substitutes_stub (c : Client) (w : World) (msgs : List Json)
    (m? em? : Option String) (t : Option ℚ) (mt : Option Int) (kw : List (String × Json))
    (prompt txt : String) (e : PyExc)
    (hF : c.use_local_fallback = true) (hL : c.provider ≠ .LOCAL)
    (hpost : ∀ u h b, w.post u h b = .error e)
    (hlc : ∀ a b x d f, w.libChat a b x d f = .error e)
    (hlt : ∀ a b x d f, w.libText a b x d f = .error e)
    (hle : ∀ a b, w.libEmbed a b = .error e) :
    (chat_completion c w msgs m? t mt kw).1 =
        .ok (local_chat_completion msgs (m?.getD (chat_default c.provider)))
      ∧ (text_completion c w prompt m? t mt kw).1 =
        .ok (local_text_completion prompt (m?.getD (text_default c.provider)))
      ∧ (create_embedding c w txt em?).1 =
        .ok (.arr ((local_embedding w.randWord txt
              (em?.getD (embedding_default c.provider))).map Json.num)) := by
  refine ⟨?_, ?_, ?_⟩ <;>
    rcases hp : c.provider with _ | _ | _ | _ <;>
      first
      | exact absurd hp hL
      | cases hc : c.client <;>
          simp_all [chat_completion, text_completion, create_embedding]

/-- C1 witness at a concrete client and failing oracle. -/
theorem fallback_substitutes_stub_witness :
    (chat_completion cOpenaiFb wFail [] none none none []).1 =
        .ok (local_chat_completion [] "gpt-3.5-turbo")
      ∧ (text_completion cOpenaiFb wFail "poem" none none none []).1 =
        .ok (local_text_completion "poem" "gpt-3.5-turbo-instruct")
      ∧ (create_embedding cOpenaiFb wFail "poem" none).1 =
        .ok (.arr ((local_embedding wFail.randWord "poem"
              "text-embedding-ada-002").map Json.num)) :=
  fallback_substitutes_stub cOpenaiFb wFail [] none none none none [] "poem" "poem"
    (.transportError 500) rfl (by decide) (fun _ _ _ => rfl) (fun _ _ _ _ _ => rfl)
    (fun _ _ _ _ _ => rfl) (fun _ _ => rfl)

/-- C2 counterexample.  With fallback disabled and a failing transport, what
surfaces is the original transport error itself: the OPENAI client and the
DEEPSEEK client yield the very same error value, so the surfaced condition is
no `ProviderCallFailed` wrapper and carries no provider identity. -/
theorem reraise_carries_no_provider_cex :
    (chat_completion cOpenaiNoFb wFail [] none none none []).1 =
        .error (.transportError 500)
      ∧ (chat_completion cDeepseekNoFb wFail [] none none none []).1 =
        .error (.transportError 500)
      ∧ cOpenaiNoFb.provider ≠ cDeepseekNoFb.provider :=
  ⟨rfl, rfl, by decide⟩

/-- C2 amended.  For every logical operation, when the provider call raises and
`use_local_fallback` is false (the provider not being LOCAL), the operation
re-raises the original transport error unchanged; no wrapper carrying the
provider identity is added. -/
theorem no_fallback_reraises_original (c : Client) (w : World) (msgs : List Json)
    (m? em? : Option String) (t : Option ℚ) (mt : Option Int) (kw : List (String × Json))
    (prompt txt : String) (e : PyExc)
    (hF : c.use_local_fallback = false) (hL : c.provider ≠ .LOCAL)
    (hpost : ∀ u h b, w.post u h b = .error e)
    (hlc : ∀ a b x d f, w.libChat a b x d f = .error e)
    (hlt : ∀ a b x d f, w.libText a b x d f = .error e)
    (hle : ∀ a b, w.libEmbed a b = .error e) :
    (chat_completion c w msgs m? t mt kw).1 = .error e
      ∧ (text_completion c w prompt m? t mt kw).1 = .error e
      ∧ (create_embedding c w txt em?).1 = .error e := by
  refine ⟨?_, ?_, ?_⟩ <;>
    rcases hp : c.provider with _ | _ | _ | _ <;>
      first
      | exact absurd hp hL
      | cases hc : c.client <;>
          simp_all [chat_completion, text_completion, create_embedding]

/-- C2 witness at a concrete client and failing oracle. -/
theorem no_fallback_reraises_original_witness :
    (chat_completion cDeepseekNoFb wFail [] none none none []).1 =
        .error (.transportError 500)
      ∧ (text_completion cDeepseekNoFb wFail "poem" none none none []).1 =
        .error (.transportError 500)
      ∧ (create_embedding cDeepseekNoFb wFail "poem" none).1 =
        .error (.transportError 500) :=
  no_fallback_reraises_original cDeepseekNoFb wFail [] none none none none [] "poem"
    "poem" (.transportError 500) rfl (by decide) (fun _ _ _ => rfl)
    (fun _ _ _ _ _ => rfl) (fun _ _ _ _ _ => rfl) (fun _ _ => rfl)

/-- C9.  No logical operation mutates client state: each call returns the
client exactly as constructed, so provider, api_key, base_url, headers and
use_local_fallback are unchanged. -/
theorem operations_preserve_client_state (c : Client) (w : World) (msgs : List Json)
    (m? em? : Option String) (t : Option ℚ) (mt : Option Int) (kw : List (String × Json))
    (prompt txt : String) :
    (chat_completion c w msgs m? t mt kw).2 = c
      ∧ (text_completion c w prompt m? t mt kw).2 = c
      ∧ (create_embedding c w txt em?).2 = c
      ∧ (list_ollama_models c w).2 = c :=
  ⟨rfl, rfl, rfl, rfl⟩

/-- C3.  Construction raises (the credential ValueError) exactly when the
provider requires a credential (OPENAI or DEEPSEEK), the resolved credential —
explicit argument first, else the environment, with Python truthiness, so an
empty string counts as absent — is missing, and fallback is disabled; OLLAMA
and LOCAL construction never fails. -/
theorem init_fails_iff_missing_credential (env : Env) (p : AIProvider)
    (k b : Option String) (f : Bool) :
    (∃ e, AIClient_init env p k b f = .error e) ↔
      ((p = .OPENAI ∧ truthy (pyOr k env.openai_key) = false ∧ f = false)
        ∨ (p = .DEEPSEEK ∧ truthy (pyOr k env.deepseek_key) = false ∧ f = false)) := by
  cases p with
  | OPENAI =>
      cases f <;> cases h : truthy (pyOr k env.openai_key) <;> simp [AIClient_init, h]
  | DEEPSEEK =>
      cases f <;> cases h : truthy (pyOr k env.deepseek_key) <;> simp [AIClient_init, h]
  | OLLAMA => simp [AIClient_init]
  | LOCAL => simp [AIClient_init]

/-- C4 counterexample.  A dict-shaped response whose `choices` entry holds a
string where a message object is expected misses the expected text key, yet
`get_completion_text` raises `TypeError` (a string subscripted with a string
key), which the extraction handler does not catch — instead of returning the
empty string. -/
theorem extraction_missing_key_raises_cex :
    get_completion_text .OPENAI [("choices", Json.arr [Json.str "hi"])] =
      .error .typeError := rfl

/-- C4 amended.  For every provider identity and every dict-shaped response
containing none of the keys the extractors inspect ("message", "response",
"choices"), `get_completion_text` and `get_text_completion` return the empty
string and raise nothing; when a "choices" key is present with wrong-typed
contents, extraction can instead raise `TypeError`, which is not among the
caught exception classes. -/
theorem extraction_missing_keys_yield_empty (p : AIProvider)
    (fs : List (String × Json))
    (hm : lookupKey fs "message" = none)
    (hc : lookupKey fs "choices" = none)
    (hr : lookupKey fs "response" = none) :
    get_completion_text p fs = .ok (.str "")
      ∧ get_text_completion p fs = .ok (.str "") := by
  constructor <;> simp [get_completion_text, get_text_completion, hm, hc, hr]

/-- C4 witness at the empty dict. -/
theorem extraction_missing_keys_yield_empty_witness :
    get_completion_text .OLLAMA [] = .ok (.str "")
      ∧ get_text_completion .OLLAMA [] = .ok (.str "") :=
  extraction_missing_keys_yield_empty .OLLAMA [] rfl rfl rfl

/-- An oracle whose POST returns an embedding response of mismatched shape
(`data` present but empty, so `data[0]` raises IndexError). -/
def wShape : World where
  post := fun _ _ _ => .ok (Json.obj [("data", Json.arr [])])
  get := fun _ => .ok (Json.obj [("data", Json.arr [])])
  libChat := fun _ _ _ _ _ => .error (.transportError 500)
  libText := fun _ _ _ _ _ => .error (.transportError 500)
  libEmbed := fun _ _ => .error (.transportError 500)
  randWord := fun _ => 0

/-- C5 counterexample.  With fallback disabled, an embedding response of
mismatched shape makes `create_embedding` raise the extraction error
(IndexError) to the caller — it is not recovered, and no path yields an empty
list. -/
theorem embedding_shape_mismatch_raises_cex :
    (create_embedding cDeepseekNoFb wShape "hello" none).1 = .error .indexError := rfl

/-- C5 amended.  An embedding response of mismatched shape is handled by the
operation's general except-clause, exactly like a transport failure: with
fallback enabled (and the provider not LOCAL) `create_embedding` returns the
1536-element local stub vector, not an empty list; with fallback disabled the
extraction error propagates to the caller. -/
theorem embedding_shape_mismatch_fallback (c : Client) (w : World) (j : Json)
    (txt : String) (em? : Option String) (e : PyExc)
    (hcl : c.client = false) (hL : c.provider ≠ .LOCAL)
    (hpost : ∀ u h b, w.post u h b = .ok j)
    (hx : embed_extract_of c.provider j = .error e) :
    (create_embedding c w txt em?).1 =
      if c.use_local_fallback then
        .ok (.arr ((local_embedding w.randWord txt
              (em?.getD (embedding_default c.provider))).map Json.num))
      else .error e := by
  rcases hp : c.provider with _ | _ | _ | _ <;>
    first
    | exact absurd hp hL
    | (cases hf : c.use_local_fallback <;>
        simp_all [create_embedding, embed_extract_of])

/-- C5 witness: DEEPSEEK client with fallback enabled and the mismatched
response. -/
theorem embedding_shape_mismatch_fallback_witness :
    (create_embedding cDeepseekFb wShape "hello" none).1 =
      if cDeepseekFb.use_local_fallback then
        .ok (.arr ((local_embedding wShape.randWord "hello"
              ((none : Option String).getD
                (embedding_default cDeepseekFb.provider))).map Json.num))
      else .error .indexError :=
  embedding_shape_mismatch_fallback cDeepseekFb wShape (Json.obj [("data", Json.arr [])])
    "hello" none .indexError rfl (by decide) (fun _ _ _ => rfl) rfl

/-- C6 counterexample.  The chat and text defaults coincide for OLLAMA (both
"llama2") and for LOCAL (both "local-model"): the defaults are not distinct for
chat vs. text for every provider identity. -/
theorem default_models_not_distinct_cex :
    chat_default .OLLAMA = text_default .OLLAMA
      ∧ chat_default .LOCAL = text_default .LOCAL :=
  ⟨rfl, rfl⟩

/-- C6 amended.  The effective model name is the caller's explicit argument
when given; otherwise the provider-and-operation default from the tables the
operations consult.  The chat/text/embedding defaults are pairwise distinct for
OPENAI and DEEPSEEK, while OLLAMA uses "llama2" for all three operations and
LOCAL uses "local-model" for both chat and text (with "local-embedding" for
embedding). -/
theorem effective_model_resolution (m : String) (p : AIProvider) :
    ((some m).getD (chat_default p) = m
      ∧ (some m).getD (text_default p) = m
      ∧ (some m).getD (embedding_default p) = m)
    ∧ ((none : Option String).getD (chat_default p) = chat_default p
      ∧ (none : Option String).getD (text_default p) = text_default p
      ∧ (none : Option String).getD (embedding_default p) = embedding_default p)
    ∧ (chat_default .OPENAI ≠ text_default .OPENAI
      ∧ chat_default .OPENAI ≠ embedding_default .OPENAI
      ∧ text_default .OPENAI ≠ embedding_default .OPENAI
      ∧ chat_default .DEEPSEEK ≠ text_default .DEEPSEEK
      ∧ chat_default .DEEPSEEK ≠ embedding_default .DEEPSEEK
      ∧ text_default .DEEPSEEK ≠ embedding_default .DEEPSEEK)
    ∧ (chat_default .OLLAMA = "llama2"
      ∧ text_default .OLLAMA = "llama2"
      ∧ embedding_default .OLLAMA = "llama2"
      ∧ chat_default .LOCAL = "local-model"
      ∧ text_default .LOCAL = "local-model"
      ∧ embedding_default .LOCAL = "local-embedding") :=
  ⟨⟨rfl, rfl, rfl⟩, ⟨rfl, rfl, rfl⟩,
   ⟨by decide, by decide, by decide, by decide, by decide, by decide⟩,
   ⟨rfl, rfl, rfl, rfl, rfl, rfl⟩⟩

/-- C7.  For every generator word stream, input text and model name, the
offline stub embedding has exactly 1536 entries, each at least 0 and strictly
below 1. -/
theorem local_embedding_length_and_range (w : Nat → Nat) (text model : String) :
    (local_embedding w text model).length = 1536
      ∧ (local_embedding w text model).Forall (fun x => 0 ≤ x ∧ x < 1) := by
  constructor
  · simp [local_embedding]
  · rw [List.forall_iff_forall_mem]
    intro x hx
    simp only [local_embedding, List.mem_map] at hx
    obtain ⟨i, -, rfl⟩ := hx
    unfold random_res53
    constructor
    · positivity
    · rw [div_lt_one (by positivity)]
      have ha : w (2 * i) % 2 ^ 32 / 2 ^ 5 < 2 ^ 27 :=
        Nat.div_lt_of_lt_mul
          (lt_of_lt_of_le (Nat.mod_lt _ (by norm_num)) (by norm_num))
      have hb : w (2 * i + 1) % 2 ^ 32 / 2 ^ 6 < 2 ^ 26 :=
        Nat.div_lt_of_lt_mul
          (lt_of_lt_of_le (Nat.mod_lt _ (by norm_num)) (by norm_num))
      have hnum : w (2 * i) % 2 ^ 32 / 2 ^ 5 * 2 ^ 26
          + w (2 * i + 1) % 2 ^ 32 / 2 ^ 6 < 2 ^ 53 := by
        have e26 : (2 : ℕ) ^ 26 = 67108864 := by norm_num
        have e27 : (2 : ℕ) ^ 27 = 134217728 := by norm_num
        have e53 : (2 : ℕ) ^ 53 = 9007199254740992 := by norm_num
        rw [e27] at ha
        rw [e26] at hb
        rw [e26, e53]
        omega
      exact_mod_cast hnum

/-- C10.  `list_ollama_models` returns the empty list for every non-OLLAMA
provider independently of the transport (no request need succeed or even be
answerable), and returns the empty list — raising nothing — whenever the body
(transport GET, `.get("models", [])`, or the per-entry name extraction)
fails. -/
theorem list_models_guard_and_failure (c : Client) (w : World) :
    (c.provider ≠ .OLLAMA → list_ollama_models c w = ([], c))
      ∧ (∀ e, listModelsBody w (c.base_url.getD "") = .error e →
          list_ollama_models c w = ([], c)) := by
  constructor
  · intro h
    simp [list_ollama_models, h]
  · intro e he
    by_cases h : c.provider ≠ .OLLAMA <;> simp [list_ollama_models, h, he]

/-- Top-level field of a JSON object (used to state payload-shape facts). -/
def objLookup (j : Json) (k : String) : Option Json :=
  match j with
  | .obj fs => lookupKey fs k
  | _ => none

/-- Replacing the value at key `k` preserves lookups of any other key. -/
theorem lookupKey_map_set_ne (fs : List (String × Json)) (k k2 : String) (v : Json)
    (h : k2 ≠ k) :
    lookupKey (fs.map (fun p => if p.1 = k then (k, v) else p)) k2 = lookupKey fs k2 := by
  induction fs with
  | nil => rfl
  | cons p rest ih =>
    obtain ⟨a, b⟩ := p
    rw [List.map_cons]
    by_cases hp : a = k
    · subst hp
      rw [if_pos (show (a, b).1 = a from rfl)]
      show (if k2 = a then some v
            else lookupKey (List.map (fun p => if p.1 = a then (a, v) else p) rest) k2)
          = if k2 = a then some b else lookupKey rest k2
      rw [if_neg h, if_neg h, ih]
    · rw [if_neg (show ¬((a, b).1 = k) from hp)]
      show (if k2 = a then some b
            else lookupKey (List.map (fun p => if p.1 = k then (k, v) else p) rest) k2)
          = if k2 = a then some b else lookupKey rest k2
      rw [ih]

/-- Replacing the value at a present key `k` makes lookup of `k` yield the new
value. -/
theorem lookupKey_map_set_self (fs : List (String × Json)) (k : String) (v : Json)
    (h : fs.any (fun p => p.1 = k) = true) :
    lookupKey (fs.map (fun p => if p.1 = k then (k, v) else p)) k = some v := by
  induction fs with
  | nil => simp at h
  | cons p rest ih =>
    obtain ⟨a, b⟩ := p
    rw [List.map_cons]
    by_cases hp : a = k
    · subst hp
      rw [if_pos (show (a, b).1 = a from rfl)]
      show (if a = a then some v
            else lookupKey (List.map (fun p => if p.1 = a then (a, v) else p) rest) a)
          = some v
      rw [if_pos rfl]
    · have h' : rest.any (fun p => p.1 = k) = true := by
        simp only [List.any_cons, Bool.or_eq_true, decide_eq_true_eq] at h
        exact h.resolve_left hp
      rw [if_neg (show ¬((a, b).1 = k) from hp)]
      show (if k = a then some b
            else lookupKey (List.map (fun p => if p.1 = k then (k, v) else p) rest) k)
          = some v
      rw [if_neg (Ne.symm hp), ih h']

/-- Appending a pair with a fresh key preserves lookups of any other key. -/
theorem lookupKey_append_ne (fs : List (String × Json)) (k k2 : String) (v : Json)
    (h : k2 ≠ k) : lookupKey (fs ++ [(k, v)]) k2 = lookupKey fs k2 := by
  induction fs with
  | nil =>
      show (if k2 = k then some v else none) = none
      rw [if_neg h]
  | cons p rest ih =>
    obtain ⟨a, b⟩ := p
    rw [List.cons_append]
    show (if k2 = a then some b else lookupKey (rest ++ [(k, v)]) k2)
        = if k2 = a then some b else lookupKey rest k2
    rw [ih]

/-- Appending a pair whose key is absent makes lookup of that key yield the
appended value. -/
theorem lookupKey_append_self (fs : List (String × Json)) (k : String) (v : Json)
    (h : fs.any (fun p => p.1 = k) = false) :
    lookupKey (fs ++ [(k, v)]) k = some v := by
  induction fs with
  | nil =>
      show (if k = k then some v else none) = some v
      rw [if_pos rfl]
  | cons p rest ih =>
    obtain ⟨a, b⟩ := p
    have hsplit : ¬(a = k) ∧ rest.any (fun p => p.1 = k) = false := by
      simp only [List.any_cons, Bool.or_eq_false_iff, decide_eq_false_iff_not] at h
      exact h
    rw [List.cons_append]
    show (if k = a then some b else lookupKey (rest ++ [(k, v)]) k) = some v
    rw [if_neg (Ne.symm hsplit.1), ih hsplit.2]

/-- Python dict assignment: lookup of the assigned key yields the value. -/
theorem lookupKey_setKey_self (fs : List (String × Json)) (k : String) (v : Json) :
    lookupKey (setKey fs k v) k = some v := by
  unfold setKey
  split
  · next h => exact lookupKey_map_set_self fs k v h
  · next h => exact lookupKey_append_self fs k v (Bool.not_eq_true _ ▸ h)

/-- Python dict assignment: lookup of any other key is unchanged. -/
theorem lookupKey_setKey_ne (fs : List (String × Json)) (k k2 : String) (v : Json)
    (h : k2 ≠ k) : lookupKey (setKey fs k v) k2 = lookupKey fs k2 := by
  unfold setKey
  split
  · exact lookupKey_map_set_ne fs k k2 v h
  · exact lookupKey_append_ne fs k k2 v h

/-- Splicing keyword arguments that do not bind `k` leaves lookup of `k`
unchanged. -/
theorem lookupKey_setKeys_ne (kvs : List (String × Json)) (fs : List (String × Json))
    (k : String) (h : lookupKey kvs k = none) :
    lookupKey (setKeys fs kvs) k = lookupKey fs k := by
  induction kvs generalizing fs with
  | nil => rfl
  | cons p rest ih =>
    obtain ⟨a, b⟩ := p
    have hka : k ≠ a := by
      intro hk
      subst hk
      simp [lookupKey] at h
    have hrest : lookupKey rest k = none := by simpa [lookupKey, hka] using h
    show lookupKey (setKeys (setKey fs a b) rest) k = lookupKey fs k
    calc lookupKey (setKeys (setKey fs a b) rest) k
        = lookupKey (setKey fs a b) k := ih (setKey fs a b) hrest
      _ = lookupKey fs k := lookupKey_setKey_ne fs a k b hka

/-- C8.  For chat and text requests, the hosted (OPENAI/DEEPSEEK) payloads
carry `temperature` and `max_tokens` as top-level fields, `max_tokens` omitted
when not supplied; the Ollama payloads always set `stream` to false, nest
`temperature` and `num_predict` under the `options` sub-object, and expose
neither as a top-level field.  The keyword-argument hypotheses say the caller's
extra parameters do not themselves rebind those keys. -/
theorem payload_parameter_placement (model prompt : String) (messages : List Json)
    (t : ℚ) (n : Int) (kwargs : List (String × Json))
    (hkT : lookupKey kwargs "temperature" = none)
    (hkM : lookupKey kwargs "max_tokens" = none) :
    (objLookup (hosted_chat_payload model messages (some t) (some n) kwargs) "temperature"
        = some (.num t)
      ∧ objLookup (hosted_chat_payload model messages (some t) (some n) kwargs) "max_tokens"
        = some (.num n)
      ∧ objLookup (hosted_chat_payload model messages (some t) none kwargs) "max_tokens"
        = none)
    ∧ (objLookup (hosted_text_payload model prompt (some t) (some n) kwargs) "temperature"
        = some (.num t)
      ∧ objLookup (hosted_text_payload model prompt (some t) (some n) kwargs) "max_tokens"
        = some (.num n)
      ∧ objLookup (hosted_text_payload model prompt (some t) none kwargs) "max_tokens"
        = none)
    ∧ (objLookup (ollama_chat_payload model messages (some t) (some n)) "stream"
        = some (.bool false)
      ∧ objLookup (ollama_chat_payload model messages none none) "stream"
        = some (.bool false)
      ∧ (objLookup (ollama_chat_payload model messages (some t) (some n)) "options").bind
          (fun o => objLookup o "temperature") = some (.num t)
      ∧ (objLookup (ollama_chat_payload model messages (some t) (some n)) "options").bind
          (fun o => objLookup o "num_predict") = some (.num n)
      ∧ objLookup (ollama_chat_payload model messages (some t) (some n)) "temperature" = none
      ∧ objLookup (ollama_chat_payload model messages (some t) (some n)) "max_tokens" = none)
    ∧ (objLookup (ollama_text_payload model prompt (some t) (some n)) "stream"
        = some (.bool false)
      ∧ (objLookup (ollama_text_payload model prompt (some t) (some n)) "options").bind
          (fun o => objLookup o "temperature") = some (.num t)
      ∧ (objLookup (ollama_text_payload model prompt (some t) (some n)) "options").bind
          (fun o => objLookup o "num_predict") = some (.num n)
      ∧ objLookup (ollama_text_payload model prompt (some t) (some n)) "temperature" = none
      ∧ objLookup (ollama_text_payload model prompt (some t) (some n)) "max_tokens" = none) := by
  refine ⟨⟨?_, ?_, ?_⟩, ⟨?_, ?_, ?_⟩,
          ⟨rfl, rfl, rfl, rfl, rfl, rfl⟩, ⟨rfl, rfl, rfl, rfl, rfl⟩⟩
  · simp only [hosted_chat_payload, objLookup]
    rw [lookupKey_setKey_ne _ _ _ _ (by decide), lookupKey_setKeys_ne kwargs _ _ hkT]
    rfl
  · simp only [hosted_chat_payload, objLookup]
    rw [lookupKey_setKey_self]
  · simp only [hosted_chat_payload, objLookup]
    rw [lookupKey_setKeys_ne kwargs _ _ hkM]
    rfl
  · simp only [hosted_text_payload, objLookup]
    rw [lookupKey_setKey_ne _ _ _ _ (by decide), lookupKey_setKeys_ne kwargs _ _ hkT]
    rfl
  · simp only [hosted_text_payload, objLookup]
    rw [lookupKey_setKey_self]
  · simp only [hosted_text_payload, objLookup]
    rw [lookupKey_setKeys_ne kwargs _ _ hkM]
    rfl

/-- C8 witness at concrete arguments and empty keyword arguments. -/
theorem payload_parameter_placement_witness :
    objLookup (hosted_chat_payload "m" [] (some (7 / 10)) (some 100) []) "temperature"
        = some (.num (7 / 10))
      ∧ objLookup (ollama_chat_payload "m" [] (some (7 / 10)) (some 100)) "stream"
        = some (.bool false) :=
  ⟨(payload_parameter_placement "m" "p" [] (7 / 10) 100 [] rfl rfl).1.1,
   (payload_parameter_placement "m" "p" [] (7 / 10) 100 [] rfl rfl).2.2.1.1⟩
